import Mathlib

/-!
Verification of the incremental dependency-tracking core of
`compiler/rustc_query_system/src/dep_graph/`.

The file `dep_graph/mod.rs` is the only file of this component present in the
source bundle.  Its pure content — `FingerprintStyle`, `reconstructible`,
`DepContext::fingerprint_style`, `is_eval_always`, `try_force_from_dep_node`,
`try_load_from_on_disk_cache`, and the `DepKind` trait's required items — is
embedded directly below.  The submodules `graph.rs` and `serialized.rs`
(colour cache, marking algorithm, persistence) are not in the bundle; the
definitions that stand in for them are explicitly marked as modelled from the
specification.

Effects are made explicit: a Rust callback that can panic becomes a function
into `Except PanicPayload Unit`, and `panic::resume_unwind` becomes the
`panicked` constructor of the result type, so that "the panic is re-raised and
the function never returns normally" is a statement about constructors.
-/

namespace DepGraphSpec

/-- `FingerprintStyle` from `dep_graph/mod.rs`: describes the contents of the
fingerprint generated by a given query. -/
inductive FingerprintStyle where
  /-- The fingerprint is actually a DefPathHash. -/
  | DefPathHash
  /-- The fingerprint is actually a HirId. -/
  | HirId
  /-- Query key was the unit value or equivalent, so fingerprint is just zero. -/
  | Unit
  /-- Some opaque hash. -/
  | Opaque
  deriving DecidableEq, Repr

/-- `FingerprintStyle::reconstructible` from `dep_graph/mod.rs`. -/
def FingerprintStyle.reconstructible : FingerprintStyle → Bool
  | FingerprintStyle.DefPathHash | FingerprintStyle.Unit | FingerprintStyle.HirId => true
  | FingerprintStyle.Opaque => false

/-- A 128-bit content hash; the embedding keeps it as a natural number since
no arithmetic is performed on it in this module. -/
abbrev Fingerprint := Nat

/-- `DepNode` is a pair of a kind and a fingerprint (spec section 3; the
defining file `dep_node.rs` is outside the bundle, but `mod.rs` uses exactly
the `kind` projection and the spec fixes the second field). -/
structure DepNode (K : Type) where
  kind : K
  fingerprint : Fingerprint
  deriving DecidableEq, Repr

/-- The payload carried by a Rust panic, reduced to the one question
`try_force_from_dep_node` asks of it: whether it is a
`rustc_errors::FatalErrorMarker`. -/
structure PanicPayload where
  is_fatal_error_marker : Bool
  deriving DecidableEq, Repr

/-- The static metadata of a `DepKind`, as consumed by `dep_graph/mod.rs`
(`DepKindStruct` itself lives in `dep_node.rs`; the fields below are exactly
the ones `mod.rs` reads: `is_anon`, `is_eval_always`, `fingerprint_style`,
`force_from_dep_node`, `try_load_from_on_disk_cache`).  `Ctx` stands for the
`Tcx` context the callbacks receive; the force callback returns unit in Rust
and may panic, hence `Except PanicPayload Unit` here. -/
structure DepKindStruct (K : Type) (Ctx : Type) where
  is_anon : Bool
  is_eval_always : Bool
  fingerprint_style : FingerprintStyle
  force_from_dep_node : Option (Ctx → DepNode K → Except PanicPayload Unit)
  try_load_from_on_disk_cache : Option (Ctx → DepNode K → Unit)

/-- `DepContext::fingerprint_style` from `dep_graph/mod.rs`: the context is
represented by its `dep_kind_info` table. -/
def fingerprint_style {K Ctx : Type} (dep_kind_info : K → DepKindStruct K Ctx)
    (kind : K) : FingerprintStyle :=
  let data := dep_kind_info kind
  if data.is_anon then FingerprintStyle.Opaque
  else data.fingerprint_style

/-- `DepContext::is_eval_always` from `dep_graph/mod.rs`. -/
def is_eval_always {K Ctx : Type} (dep_kind_info : K → DepKindStruct K Ctx)
    (kind : K) : Bool :=
  (dep_kind_info kind).is_eval_always

/-- Result of `try_force_from_dep_node`.  `ok b` is a normal return with
boolean `b`; `panicked v printed` is `panic::resume_unwind v` after the mark
frame trace was printed iff `printed`. -/
inductive ForceResult where
  | ok (attempted : Bool)
  | panicked (value : PanicPayload) (printed_trace : Bool)
  deriving DecidableEq, Repr

/-- `DepContext::try_force_from_dep_node` from `dep_graph/mod.rs`: look up the
kind's `force_from_dep_node` callback; absent ⇒ return `false`; present ⇒ run
it under `catch_unwind`, and on a panic print the mark frame trace (unless the
payload is a `FatalErrorMarker`) and re-raise, otherwise return `true`. -/
def try_force_from_dep_node {K Ctx : Type} (dep_kind_info : K → DepKindStruct K Ctx)
    (ctx : Ctx) (dep_node : DepNode K) : ForceResult :=
  let cb := dep_kind_info dep_node.kind
  match cb.force_from_dep_node with
  | some f =>
    match f ctx dep_node with
    | Except.error value =>
        ForceResult.panicked value (!value.is_fatal_error_marker)
    | Except.ok _ => ForceResult.ok true
  | none => ForceResult.ok false

/-- `DepContext::try_load_from_on_disk_cache` from `dep_graph/mod.rs`: invoke
the kind's callback when present.  The returned option records whether a
callback was invoked at all (`none` = nothing ran). -/
def try_load_from_on_disk_cache {K Ctx : Type} (dep_kind_info : K → DepKindStruct K Ctx)
    (ctx : Ctx) (dep_node : DepNode K) : Option Unit :=
  let cb := dep_kind_info dep_node.kind
  match cb.try_load_from_on_disk_cache with
  | some f => some (f ctx dep_node)
  | none => none

/-- The pure requirements of the `DepKind` trait from `dep_graph/mod.rs`: every
implementation must supply the `NULL` sentinel (used when incremental
compilation is turned off) and the `RED` sentinel (used to create the initial
forever-red node).  The trait's remaining items (`debug_node`, `with_deps`,
`read_deps`) are formatter- and thread-context-effectful and carry no data
relevant to the claims. -/
structure DepKindC (K : Type) where
  NULL : K
  RED : K

end DepGraphSpec

namespace DepGraphSpec

/-- A two-kind info table: kind `true` is anonymous yet declares
`DefPathHash`; kind `false` is plain and declares `HirId`. -/
def anon_and_plain_table : Bool → DepKindStruct Bool Unit :=
  fun b =>
    if b then DepKindStruct.mk true false FingerprintStyle.DefPathHash none none
    else DepKindStruct.mk false false FingerprintStyle.HirId none none

/-- C1: for every kind, `fingerprint_style` returns `Opaque` whenever the
kind's metadata has `is_anon` set, regardless of the declared
`fingerprint_style` field, and returns exactly the declared field for every
non-anonymous kind. -/
theorem fingerprint_style_of_anon {K Ctx : Type}
    (dep_kind_info : K → DepKindStruct K Ctx) (kind : K) :
    ((dep_kind_info kind).is_anon = true →
      fingerprint_style dep_kind_info kind = FingerprintStyle.Opaque) ∧
    ((dep_kind_info kind).is_anon = false →
      fingerprint_style dep_kind_info kind = (dep_kind_info kind).fingerprint_style) := by
  constructor <;> intro h <;> simp [fingerprint_style, h]

/-- A concrete anonymous kind and a concrete non-anonymous kind exercising
`fingerprint_style_of_anon`: the anonymous kind declares `DefPathHash` yet is
classified `Opaque`; the plain kind keeps its declared `HirId`. -/
theorem fingerprint_style_of_anon_witness :
    fingerprint_style anon_and_plain_table true = FingerprintStyle.Opaque ∧
    fingerprint_style anon_and_plain_table false = FingerprintStyle.HirId :=
  ⟨(fingerprint_style_of_anon anon_and_plain_table true).1 rfl,
   (fingerprint_style_of_anon anon_and_plain_table false).2 rfl⟩

/-- C2: `reconstructible` is true exactly on `DefPathHash`, `Unit` and
`HirId`, and false on `Opaque`. -/
theorem reconstructible_spec :
    ∀ s : FingerprintStyle,
      (s.reconstructible = true ↔
        (s = FingerprintStyle.DefPathHash ∨ s = FingerprintStyle.Unit ∨
          s = FingerprintStyle.HirId)) ∧
      (s = FingerprintStyle.Opaque → s.reconstructible = false) := by
  intro s
  cases s <;> exact ⟨by decide, by decide⟩

/-- The opaque style is not reconstructible and the unit style is, exercising
`reconstructible_spec`. -/
theorem reconstructible_spec_witness :
    FingerprintStyle.reconstructible FingerprintStyle.Opaque = false ∧
    FingerprintStyle.reconstructible FingerprintStyle.Unit = true :=
  ⟨(reconstructible_spec FingerprintStyle.Opaque).2 rfl,
   (reconstructible_spec FingerprintStyle.Unit).1.mpr (Or.inr (Or.inl rfl))⟩

/-- C3: when the force callback panics, `try_force_from_dep_node` re-raises
the panic (after the diagnostic trace, printed exactly when the payload is not
a fatal-error marker) and never returns normally. -/
theorem try_force_from_dep_node_propagates_panic {K Ctx : Type}
    (dep_kind_info : K → DepKindStruct K Ctx) (ctx : Ctx) (dep_node : DepNode K)
    (f : Ctx → DepNode K → Except PanicPayload Unit) (value : PanicPayload)
    (hcb : (dep_kind_info dep_node.kind).force_from_dep_node = some f)
    (hpanic : f ctx dep_node = Except.error value) :
    try_force_from_dep_node dep_kind_info ctx dep_node =
      ForceResult.panicked value (!value.is_fatal_error_marker) ∧
    ∀ b : Bool, try_force_from_dep_node dep_kind_info ctx dep_node ≠ ForceResult.ok b := by
  refine ⟨?_, ?_⟩ <;> simp [try_force_from_dep_node, hcb, hpanic]

/-- A kind whose force callback panics with a non-fatal payload: the panic is
re-raised with the trace printed, exercising
`try_force_from_dep_node_propagates_panic`. -/
theorem try_force_from_dep_node_propagates_panic_witness :
    try_force_from_dep_node
      (fun _ : Unit => DepKindStruct.mk false false FingerprintStyle.Opaque
        (some fun _ _ => Except.error (PanicPayload.mk false)) none)
      () (DepNode.mk () 0) =
      ForceResult.panicked (PanicPayload.mk false) true :=
  (try_force_from_dep_node_propagates_panic _ () (DepNode.mk () 0)
    (fun _ _ => Except.error (PanicPayload.mk false)) (PanicPayload.mk false)
    rfl rfl).1

/-- C4, modelled from the spec: the step of the marking algorithm (it lives in
`graph.rs`, which is absent from the source bundle) that resolves a
dependency by forcing.  Per spec sections 4.3 and 7(d), when
`try_force_from_dep_node` reports that forcing was inapplicable the node is
treated as automatically red; when forcing ran, the node's colour is
re-examined; a panic keeps unwinding. -/
inductive ForcedDepOutcome where
  /-- The dependency is assumed invalid (automatic red); no error is raised. -/
  | red
  /-- Forcing ran; the marking algorithm re-checks the node's colour. -/
  | recheck_color
  /-- The forcing computation panicked; the unwind continues. -/
  | panic (value : PanicPayload) (printed_trace : Bool)
  deriving DecidableEq, Repr

/-- Modelled from the spec: the marking algorithm's reaction to the result of
`try_force_from_dep_node` (the reacting code is in `graph.rs`, not part of the
source bundle; the embedded `try_force_from_dep_node` it consumes is the real
one from `mod.rs`). -/
def mark_dependency_by_forcing {K Ctx : Type} (dep_kind_info : K → DepKindStruct K Ctx)
    (ctx : Ctx) (dep_node : DepNode K) : ForcedDepOutcome :=
  match try_force_from_dep_node dep_kind_info ctx dep_node with
  | ForceResult.ok false => ForcedDepOutcome.red
  | ForceResult.ok true => ForcedDepOutcome.recheck_color
  | ForceResult.panicked value printed => ForcedDepOutcome.panic value printed

/-- C4: a dependency whose kind has no `force_from_dep_node` callback (so
`try_force_from_dep_node` returns `false`) is treated by the marking algorithm
as automatically red, and no error is raised for it. -/
theorem unforceable_dep_is_automatically_red {K Ctx : Type}
    (dep_kind_info : K → DepKindStruct K Ctx) (ctx : Ctx) (dep_node : DepNode K)
    (hcb : (dep_kind_info dep_node.kind).force_from_dep_node = none) :
    try_force_from_dep_node dep_kind_info ctx dep_node = ForceResult.ok false ∧
    mark_dependency_by_forcing dep_kind_info ctx dep_node = ForcedDepOutcome.red := by
  have hforce : try_force_from_dep_node dep_kind_info ctx dep_node = ForceResult.ok false := by
    simp [try_force_from_dep_node, hcb]
  exact ⟨hforce, by simp [mark_dependency_by_forcing, hforce]⟩

/-- An anonymous, unforceable kind: marking resolves it as automatic red,
exercising `unforceable_dep_is_automatically_red`. -/
theorem unforceable_dep_is_automatically_red_witness :
    mark_dependency_by_forcing
      (fun _ : Unit => DepKindStruct.mk true false FingerprintStyle.Opaque none none)
      () (DepNode.mk () 7) = ForcedDepOutcome.red :=
  (unforceable_dep_is_automatically_red _ () (DepNode.mk () 7) rfl).2

/-- C9: `try_force_from_dep_node` returns `false` exactly when the kind has no
`force_from_dep_node` callback, and returns `true` whenever a callback exists
and completes without panicking — the boolean reports only that forcing was
attempted, never the colour of the forced node. -/
theorem try_force_from_dep_node_reports_attempt {K Ctx : Type}
    (dep_kind_info : K → DepKindStruct K Ctx) (ctx : Ctx) (dep_node : DepNode K) :
    (try_force_from_dep_node dep_kind_info ctx dep_node = ForceResult.ok false ↔
      (dep_kind_info dep_node.kind).force_from_dep_node = none) ∧
    (∀ f : Ctx → DepNode K → Except PanicPayload Unit,
      (dep_kind_info dep_node.kind).force_from_dep_node = some f →
      ∀ u : Unit, f ctx dep_node = Except.ok u →
        try_force_from_dep_node dep_kind_info ctx dep_node = ForceResult.ok true) := by
  constructor
  · constructor
    · intro h
      cases hcb : (dep_kind_info dep_node.kind).force_from_dep_node with
      | none => rfl
      | some f =>
        exfalso
        simp only [try_force_from_dep_node, hcb] at h
        cases hf : f ctx dep_node with
        | error value => rw [hf] at h; exact absurd h (by simp)
        | ok u => rw [hf] at h; exact absurd h (by simp)
    · intro h
      simp [try_force_from_dep_node, h]
  · intro f hcb u hok
    simp [try_force_from_dep_node, hcb, hok]

/-- A two-kind info table: kind `true` carries a force callback that completes
normally; kind `false` carries none. -/
def forceable_and_plain_table : Bool → DepKindStruct Bool Unit :=
  fun b =>
    if b then
      DepKindStruct.mk false false FingerprintStyle.DefPathHash
        (some fun _ _ => Except.ok ()) none
    else DepKindStruct.mk false false FingerprintStyle.DefPathHash none none

/-- A kind with a successfully completing force callback returns `true`, and
one without a callback returns `false`, exercising
`try_force_from_dep_node_reports_attempt`. -/
theorem try_force_from_dep_node_reports_attempt_witness :
    try_force_from_dep_node forceable_and_plain_table () (DepNode.mk true 1) =
      ForceResult.ok true ∧
    try_force_from_dep_node forceable_and_plain_table () (DepNode.mk false 1) =
      ForceResult.ok false :=
  ⟨(try_force_from_dep_node_reports_attempt forceable_and_plain_table ()
      (DepNode.mk true 1)).2 (fun _ _ => Except.ok ()) rfl () rfl,
   (try_force_from_dep_node_reports_attempt forceable_and_plain_table ()
      (DepNode.mk false 1)).1.2 rfl⟩

/-- C10: for a kind with no `try_load_from_on_disk_cache` callback, the
operation is a silent no-op — it returns normally having invoked nothing. -/
theorem try_load_from_on_disk_cache_noop {K Ctx : Type}
    (dep_kind_info : K → DepKindStruct K Ctx) (ctx : Ctx) (dep_node : DepNode K)
    (hcb : (dep_kind_info dep_node.kind).try_load_from_on_disk_cache = none) :
    try_load_from_on_disk_cache dep_kind_info ctx dep_node = none := by
  simp [try_load_from_on_disk_cache, hcb]

/-- A kind without an on-disk-cache callback: loading invokes nothing,
exercising `try_load_from_on_disk_cache_noop`. -/
theorem try_load_from_on_disk_cache_noop_witness :
    try_load_from_on_disk_cache
      (fun _ : Unit => DepKindStruct.mk false true FingerprintStyle.Unit none none)
      () (DepNode.mk () 3) = none :=
  try_load_from_on_disk_cache_noop _ () (DepNode.mk () 3) rfl

/-- C8: every implementation of the `DepKind` trait provides the two required
sentinel kinds — `NULL` for disabled tracking and `RED` for the distinguished
forever-red node. -/
theorem depkind_provides_sentinels (K : Type) (inst : DepKindC K) :
    ∃ null_kind red_kind : K, inst.NULL = null_kind ∧ inst.RED = red_kind :=
  ⟨inst.NULL, inst.RED, rfl, rfl⟩

/-- A concrete two-kind implementation supplies its sentinels, exercising
`depkind_provides_sentinels`. -/
theorem depkind_provides_sentinels_witness :
    ∃ null_kind red_kind : Bool,
      (DepKindC.mk false true).NULL = null_kind ∧ (DepKindC.mk false true).RED = red_kind :=
  depkind_provides_sentinels Bool (DepKindC.mk false true)

/-- `DepNodeColor` as re-exported by `dep_graph/mod.rs` (its defining file
`graph.rs` is absent from the bundle; spec section 3 fixes the two variants:
red, or green carrying the node's current-run index). -/
inductive DepNodeColor where
  | Red
  | Green (idx : Nat)
  deriving DecidableEq, Repr

/-- Modelled from the spec: the colour cache of `graph.rs` (absent from the
bundle), a memoization table from previous-run node identity
(`SerializedDepNodeIndex`, here a `Nat`) to colour. -/
def ColorCache := List (Nat × DepNodeColor)

/-- Query the colour recorded for previous-run node `i`, if any. -/
def ColorCache.lookup (c : ColorCache) (i : Nat) : Option DepNodeColor :=
  List.lookup i c

/-- Modelled from the spec: the cache is populated monotonically — recording a
colour for a node that already has one leaves the table unchanged (spec
sections 3 and 5: the cache transitions to a final colour exactly once per
node). -/
def ColorCache.insert_once (c : ColorCache) (i : Nat) (color : DepNodeColor) : ColorCache :=
  match c.lookup i with
  | some _ => c
  | none => (i, color) :: c

/-- A linearization of the colour-recording events performed by all threads of
a run, applied in order. -/
def ColorCache.apply_events (c : ColorCache) : List (Nat × DepNodeColor) → ColorCache
  | [] => c
  | (i, color) :: evs => ColorCache.apply_events (c.insert_once i color) evs

/-- A single `insert_once` never disturbs an already recorded colour. -/
theorem ColorCache.lookup_insert_once_of_some (c : ColorCache) (i j : Nat)
    (col col' : DepNodeColor) (h : c.lookup i = some col) :
    (c.insert_once j col').lookup i = some col := by
  unfold ColorCache.insert_once
  cases hj : c.lookup j with
  | some _ => simpa using h
  | none =>
    by_cases hij : i = j
    · subst hij; rw [h] at hj; cases hj
    · have hbeq : (i == j) = false := by simp [hij]
      simpa [ColorCache.lookup, List.lookup, hbeq] using h

/-- C5: colour monotonicity.  Once the colour cache records a colour for a
previous-run node, every later query — after any further linearized sequence
of recording events from any thread — returns that identical colour. -/
theorem color_cache_monotone (c : ColorCache) (i : Nat) (col : DepNodeColor)
    (evs : List (Nat × DepNodeColor)) (h : c.lookup i = some col) :
    (c.apply_events evs).lookup i = some col := by
  induction evs generalizing c with
  | nil => exact h
  | cons ev evs ih =>
    obtain ⟨j, col'⟩ := ev
    exact ih _ (ColorCache.lookup_insert_once_of_some c i j col col' h)

/-- A cache that recorded green for node 0 still answers green after a racing
thread tries to overwrite it with red and colours other nodes, exercising
`color_cache_monotone`. -/
theorem color_cache_monotone_witness :
    (ColorCache.apply_events [(0, DepNodeColor.Green 4)]
      [(0, DepNodeColor.Red), (1, DepNodeColor.Red), (0, DepNodeColor.Green 9)]).lookup 0 =
      some (DepNodeColor.Green 4) :=
  color_cache_monotone [(0, DepNodeColor.Green 4)] 0 (DepNodeColor.Green 4)
    [(0, DepNodeColor.Red), (1, DepNodeColor.Red), (0, DepNodeColor.Green 9)] rfl

/-- Modelled from the spec: one record of the persisted previous-run graph of
`serialized.rs` (absent from the bundle): the node's identity (kind and
fingerprint) and its dependency edge list, edges being
`SerializedDepNodeIndex` positions into the same graph. -/
structure SerializedNodeData (K : Type) where
  node : DepNode K
  edges : List Nat
  deriving DecidableEq, Repr

/-- Modelled from the spec: the externally observable structure of a persisted
dependency graph — its nodes in `SerializedDepNodeIndex` order, each with
identity, fingerprint and edge list. -/
structure SerializedDepGraph (K : Type) where
  nodes : List (SerializedNodeData K)
  deriving DecidableEq, Repr

/-- Modelled from the spec: the serialized form of one node — its kind (kinds
are integer-encodable, `DepKind: Encodable` in `mod.rs`), its fingerprint,
and its length-prefixed edge list. -/
def encode_node {K : Type} (encode_kind : K → Nat) (d : SerializedNodeData K) : List Nat :=
  encode_kind d.node.kind :: d.node.fingerprint :: d.edges.length :: d.edges

/-- Modelled from the spec: `encode`, producing the byte stream persisted at
the end of a run — the node count followed by each node's record. -/
def encode {K : Type} (encode_kind : K → Nat) (g : SerializedDepGraph K) : List Nat :=
  g.nodes.length :: (g.nodes.map (encode_node encode_kind)).flatten

/-- Read `count` edge entries off the front of the stream. -/
def decode_edges : Nat → List Nat → Option (List Nat × List Nat)
  | 0, rest => some ([], rest)
  | _ + 1, [] => none
  | count + 1, e :: rest =>
    match decode_edges count rest with
    | some (es, r) => some (e :: es, r)
    | none => none

/-- Read one node record off the front of the stream; any malformed prefix is
a corrupt-graph condition, reported as `none`. -/
def decode_node {K : Type} (decode_kind : Nat → Option K) :
    List Nat → Option (SerializedNodeData K × List Nat)
  | k :: fp :: len :: rest =>
    match decode_kind k with
    | some kind =>
      match decode_edges len rest with
      | some (es, r) => some (⟨⟨kind, fp⟩, es⟩, r)
      | none => none
    | none => none
  | _ => none

/-- Read `count` node records off the front of the stream. -/
def decode_nodes {K : Type} (decode_kind : Nat → Option K) :
    Nat → List Nat → Option (List (SerializedNodeData K) × List Nat)
  | 0, rest => some ([], rest)
  | count + 1, bytes =>
    match decode_node decode_kind bytes with
    | some (d, rest) =>
      match decode_nodes decode_kind count rest with
      | some (ds, r) => some (d :: ds, r)
      | none => none
    | none => none

/-- Modelled from the spec: `load`, consuming the byte stream produced by the
previous run.  Malformed input — a bad prefix or trailing garbage — yields
`none` (the `CorruptGraph` condition, which callers treat as an absent
previous graph). -/
def load {K : Type} (decode_kind : Nat → Option K) (bytes : List Nat) :
    Option (SerializedDepGraph K) :=
  match bytes with
  | [] => none
  | count :: rest =>
    match decode_nodes decode_kind count rest with
    | some (ds, []) => some ⟨ds⟩
    | _ => none

/-- Edge lists decode back to themselves, whatever follows them. -/
theorem decode_edges_append (es r : List Nat) :
    decode_edges es.length (es ++ r) = some (es, r) := by
  induction es with
  | nil => rfl
  | cons e es ih => simp [decode_edges, ih]

/-- A node record decodes back to itself when the kind codec inverts. -/
theorem decode_node_encode_node {K : Type} (encode_kind : K → Nat)
    (decode_kind : Nat → Option K)
    (hinv : ∀ k : K, decode_kind (encode_kind k) = some k)
    (d : SerializedNodeData K) (r : List Nat) :
    decode_node decode_kind (encode_node encode_kind d ++ r) = some (d, r) := by
  simp [encode_node, decode_node, hinv, decode_edges_append]

/-- A list of node records decodes back to itself when the kind codec
inverts. -/
theorem decode_nodes_encode {K : Type} (encode_kind : K → Nat)
    (decode_kind : Nat → Option K)
    (hinv : ∀ k : K, decode_kind (encode_kind k) = some k)
    (ds : List (SerializedNodeData K)) (r : List Nat) :
    decode_nodes decode_kind ds.length ((ds.map (encode_node encode_kind)).flatten ++ r) =
      some (ds, r) := by
  induction ds with
  | nil => rfl
  | cons d ds ih =>
    simp only [List.map_cons, List.flatten_cons, List.length_cons, List.append_assoc]
    simp [decode_nodes, decode_node_encode_node encode_kind decode_kind hinv, ih]

/-- C6: persistence round-trip.  For every graph, decoding the bytes produced
by `encode` with `load` yields exactly the same externally observable
structure — node identities, fingerprints and edge lists — provided the kind
codec inverts (the two runs use the same tool version). -/
theorem load_encode_roundtrip {K : Type} (encode_kind : K → Nat)
    (decode_kind : Nat → Option K)
    (hinv : ∀ k : K, decode_kind (encode_kind k) = some k)
    (g : SerializedDepGraph K) :
    load decode_kind (encode encode_kind g) = some g := by
  have h := decode_nodes_encode encode_kind decode_kind hinv g.nodes []
  simp only [List.append_nil] at h
  simp [encode, load, h]

/-- A two-node graph with an edge and distinct fingerprints survives the
round-trip unchanged, exercising `load_encode_roundtrip`. -/
theorem load_encode_roundtrip_witness :
    load (fun n : Nat => some n)
      (encode (fun n : Nat => n)
        (SerializedDepGraph.mk
          [SerializedNodeData.mk (DepNode.mk 2 77) [],
           SerializedNodeData.mk (DepNode.mk 5 91) [0]])) =
      some (SerializedDepGraph.mk
        [SerializedNodeData.mk (DepNode.mk 2 77) [],
         SerializedNodeData.mk (DepNode.mk 5 91) [0]]) :=
  load_encode_roundtrip (fun n => n) (fun n => some n) (fun _ => rfl)
    (SerializedDepGraph.mk
      [SerializedNodeData.mk (DepNode.mk 2 77) [],
       SerializedNodeData.mk (DepNode.mk 5 91) [0]])

/-- Result of the marking depth-first search over an `n`-node previous-run
graph: green, red, the fatal structural-cycle error carrying the in-progress
path, or exhaustion of the recursion-depth budget (shown below never to occur
once the budget exceeds the node count). -/
inductive MarkResult (n : Nat) where
  | green
  | red
  | structural_cycle (path : List (Fin n))
  | out_of_fuel
  deriving DecidableEq, Repr

/-- Modelled from the spec: the previous-run graph consulted by the marking
algorithm of `graph.rs` (absent from the bundle) — for each of the `n`
previous-run nodes, its dependency edge list and whether its kind is
eval-always. -/
structure MarkGraph (n : Nat) where
  deps : Fin n → List (Fin n)
  eval_always : Fin n → Bool

/-- Modelled from the spec (section 4.3): mark node `k`, with `path` the
in-progress depth-first stack.  A node already on the path is a structural
cycle, reported together with the path that closed it.  Otherwise `k`'s
previous-run dependencies are resolved left to right: an eval-always
dependency is red unconditionally, any other is marked recursively; the first
non-green resolution decides `k` (red stays red, a cycle keeps propagating),
and `k` is green when every dependency resolves green.  `fuel` bounds the
recursion depth. -/
def mark {n : Nat} (g : MarkGraph n) : Nat → List (Fin n) → Fin n → MarkResult n
  | 0, _, _ => MarkResult.out_of_fuel
  | fuel + 1, path, k =>
    if k ∈ path then MarkResult.structural_cycle (path ++ [k])
    else
      (g.deps k).foldl
        (fun acc d =>
          match acc with
          | MarkResult.green =>
            if g.eval_always d then MarkResult.red
            else mark g fuel (path ++ [k]) d
          | r => r)
        MarkResult.green

/-- The dependency-list resolution loop of `mark`, named for the lemmas. -/
def mark_deps {n : Nat} (g : MarkGraph n) (fuel : Nat) (path : List (Fin n))
    (ds : List (Fin n)) : MarkResult n :=
  ds.foldl
    (fun acc d =>
      match acc with
      | MarkResult.green =>
        if g.eval_always d then MarkResult.red
        else mark g fuel path d
      | r => r)
    MarkResult.green

/-- Unfolding `mark` at positive fuel. -/
theorem mark_succ {n : Nat} (g : MarkGraph n) (fuel : Nat) (path : List (Fin n))
    (k : Fin n) :
    mark g (fuel + 1) path k =
      if k ∈ path then MarkResult.structural_cycle (path ++ [k])
      else mark_deps g fuel (path ++ [k]) (g.deps k) :=
  rfl

/-- A non-green accumulator absorbs the rest of the dependency loop. -/
theorem mark_deps_loop_absorb {n : Nat} (g : MarkGraph n) (fuel : Nat)
    (path : List (Fin n)) (ds : List (Fin n)) (acc : MarkResult n)
    (h : acc ≠ MarkResult.green) :
    ds.foldl
      (fun acc d =>
        match acc with
        | MarkResult.green =>
          if g.eval_always d then MarkResult.red
          else mark g fuel path d
        | r => r)
      acc = acc := by
  induction ds with
  | nil => rfl
  | cons d ds ih =>
    have hstep :
        (match acc with
          | MarkResult.green =>
            if g.eval_always d then MarkResult.red
            else mark g fuel path d
          | r => r) = acc := by
      cases acc with
      | green => exact absurd rfl h
      | red => rfl
      | structural_cycle p => rfl
      | out_of_fuel => rfl
    simpa [List.foldl_cons, hstep] using ih

/-- The dependency loop runs out of fuel only when marking one of the listed
dependencies does. -/
theorem mark_deps_ne_out_of_fuel {n : Nat} (g : MarkGraph n) (fuel : Nat)
    (path : List (Fin n)) (ds : List (Fin n))
    (h : ∀ d ∈ ds, mark g fuel path d ≠ MarkResult.out_of_fuel) :
    mark_deps g fuel path ds ≠ MarkResult.out_of_fuel := by
  induction ds with
  | nil => simp [mark_deps]
  | cons d ds ih =>
    have hd : mark g fuel path d ≠ MarkResult.out_of_fuel :=
      h d (List.mem_cons_self d ds)
    have hds : ∀ e ∈ ds, mark g fuel path e ≠ MarkResult.out_of_fuel :=
      fun e he => h e (List.mem_cons_of_mem d he)
    simp only [mark_deps, List.foldl_cons]
    by_cases heval : g.eval_always d
    · rw [if_pos heval, mark_deps_loop_absorb g fuel path ds MarkResult.red (by simp)]
      simp
    · rw [if_neg heval]
      cases hm : mark g fuel path d with
      | green =>
        have := ih hds
        simpa [mark_deps] using this
      | red =>
        rw [mark_deps_loop_absorb g fuel path ds MarkResult.red (by simp)]
        simp
      | structural_cycle p =>
        rw [mark_deps_loop_absorb g fuel path ds (MarkResult.structural_cycle p) (by simp)]
        simp
      | out_of_fuel => exact absurd hm hd

/-- Marking terminates: a fuel budget exceeding the number of nodes not yet on
the in-progress path can never be exhausted, for any graph.  In particular the
recursion depth from an empty path is bounded by `n + 1`, so the search
neither loops forever nor overflows. -/
theorem mark_ne_out_of_fuel {n : Nat} (g : MarkGraph n) (fuel : Nat)
    (path : List (Fin n)) (k : Fin n) (hp : path.Nodup)
    (hfuel : n < path.length + fuel) :
    mark g fuel path k ≠ MarkResult.out_of_fuel := by
  induction fuel generalizing path k with
  | zero =>
    exfalso
    have hle : path.length ≤ n := by
      simpa [Fintype.card_fin] using hp.length_le_card
    omega
  | succ fuel ih =>
    rw [mark_succ]
    by_cases hk : k ∈ path
    · simp [hk]
    · simp only [hk, if_false]
      have hp' : (path ++ [k]).Nodup := by
        simp [List.nodup_append, hp, List.disjoint_singleton, hk]
      have hfuel' : n < (path ++ [k]).length + fuel := by
        simp only [List.length_append, List.length_singleton]
        omega
      exact mark_deps_ne_out_of_fuel g fuel (path ++ [k]) (g.deps k)
        (fun d _ => ih (path ++ [k]) d hp' hfuel')

/-- Modelled from the spec (section 8): the canonical cyclic previous-run
graph A→B→C→A — three nodes, each depending exactly on its successor, none
eval-always. -/
def cycle3 : MarkGraph 3 :=
  MarkGraph.mk (fun k => [k + 1]) (fun _ => false)

/-- The in-progress path reported when marking the cycle of `cycle3` starting
from `k`: the three nodes in discovery order, closed by `k` itself. -/
def cycle3_path (k : Fin 3) : List (Fin 3) := [k, k + 1, k + 2, k]

/-- Modelled from the spec: a previous-run graph that contains the cycle
0→1→2→0 but whose node 0 also depends, first, on the eval-always node 3. -/
def red_before_cycle : MarkGraph 4 :=
  MarkGraph.mk
    (fun k =>
      if k = 0 then [3, 1]
      else if k = 1 then [2]
      else if k = 2 then [0]
      else [])
    (fun k => k == 3)

/-- C7 counterexample: a previous-run graph containing the dependency cycle
0→1→2→0 on which marking node 0 — a node of the cycle — resolves red and does
not raise the structural-cycle error, because 0's first dependency (the
eval-always node 3) resolves red before the walk enters the cycle. -/
theorem mark_cycle_not_always_reported :
    (1 ∈ red_before_cycle.deps 0 ∧ 2 ∈ red_before_cycle.deps 1 ∧
      0 ∈ red_before_cycle.deps 2) ∧
    mark red_before_cycle 5 [] 0 = MarkResult.red ∧
    ∀ p : List (Fin 4),
      mark red_before_cycle 5 [] 0 ≠ MarkResult.structural_cycle p := by
  refine ⟨by decide, by decide, fun p h => ?_⟩
  rw [show mark red_before_cycle 5 [] 0 = MarkResult.red from by decide] at h
  cases h

/-- C7 (amended): marking can never exhaust a fuel budget exceeding the count
of nodes off the in-progress path (so it neither loops forever nor overflows,
on any graph); encountering a node already on the in-progress path raises the
structural-cycle error reporting that path; and on the pure cycle A→B→C→A,
marking any of the three nodes raises the structural-cycle error with the full
cycle as the path, whatever the discovery order. -/
theorem mark_detects_pure_cycles :
    (∀ (n : Nat) (g : MarkGraph n) (fuel : Nat) (path : List (Fin n)) (k : Fin n),
      path.Nodup → n < path.length + fuel →
        mark g fuel path k ≠ MarkResult.out_of_fuel) ∧
    (∀ (n : Nat) (g : MarkGraph n) (fuel : Nat) (path : List (Fin n)) (k : Fin n),
      k ∈ path →
        mark g (fuel + 1) path k = MarkResult.structural_cycle (path ++ [k])) ∧
    (∀ k : Fin 3, mark cycle3 4 [] k = MarkResult.structural_cycle (cycle3_path k)) := by
  refine ⟨fun n g fuel path k hp hfuel => mark_ne_out_of_fuel g fuel path k hp hfuel,
    fun n g fuel path k hk => ?_, by decide⟩
  rw [mark_succ]
  simp [hk]

/-- Marking node 0 of the pure three-cycle raises the structural-cycle error
with path 0→1→2→0 and does not run out of fuel, and a node already in
progress is reported at once, exercising `mark_detects_pure_cycles`. -/
theorem mark_detects_pure_cycles_witness :
    mark cycle3 4 [] 0 ≠ MarkResult.out_of_fuel ∧
    mark cycle3 1 [0] 0 = MarkResult.structural_cycle [0, 0] ∧
    mark cycle3 4 [] 0 = MarkResult.structural_cycle (cycle3_path 0) :=
  ⟨mark_detects_pure_cycles.1 3 cycle3 4 [] 0 List.nodup_nil (by decide),
   mark_detects_pure_cycles.2.1 3 cycle3 0 [0] 0 (by decide),
   mark_detects_pure_cycles.2.2 0⟩

end DepGraphSpec
